import Mathlib

/-!
# A shallow embedding of the class-based dialog component of `dialog.js`

This file models the `ACPDialog` class and its `AlertDialog` / `ConfirmDialog`
/ `PromptDialog` subclasses (the `Dialog.alert/confirm/prompt` factories).
DOM elements are identified by natural numbers.  DOM effects, listener
invocations and lifecycle-event emissions are recorded as explicit `Action`
traces, in the execution order of the source; a DOM exception escaping an
entry point is recorded in the `threw` flag of a `StepResult` (the state
mutations made before the throw persist, as they do in the browser).
-/

namespace ACP

/-- The three dialog variants: `AlertDialog`, `ConfirmDialog`, `PromptDialog`. -/
inductive Kind where
  | alert
  | confirm
  | prompt
deriving DecidableEq

/-- The CSS class `CSS.PrimaryButton` marking the OK button. -/
def CSSPrimaryButton : String := "sfdc-dialog-button-primary"

/-- Model of the markup snippet returned by a `_getOkButton` or
`_getCancelButton` method: which attributes the rendered button carries. -/
structure BtnHTML where
  closer : Bool
  autofocus : Bool
  primary : Bool
deriving DecidableEq

/-- `_getOkButton`: `AlertDialog` renders the OK button with `autofocus`,
`CPDialog` (confirm and prompt) without; all carry the closer attribute
`data-sfdc-dialog-closer` and the primary-button class. -/
def getOkButton : Kind → BtnHTML
  | .alert => ⟨true, true, true⟩
  | .confirm => ⟨true, false, true⟩
  | .prompt => ⟨true, false, true⟩

/-- `_getCancelButton`: the empty string for alert; `ConfirmDialog` renders
the cancel button with `autofocus`, `PromptDialog` without; neither carries
the primary-button class. -/
def getCancelButton : Kind → Option BtnHTML
  | .alert => none
  | .confirm => some ⟨true, true, false⟩
  | .prompt => some ⟨true, false, false⟩

/-- The JS truthiness choice in `PromptDialog._getInputElement`:
`defaultValue ? defaultValue : ''` (an absent or empty `defaultValue` gives
the empty string). -/
def jsTruthyString : Option String → String
  | none => ""
  | some v => if v = "" then "" else v

/-- `_getInputElement`: only `PromptDialog` renders the text input, whose
`value` attribute is the truthiness-defaulted `defaultValue`. -/
def getInputElement : Kind → Option String → Option String
  | .alert, _ => none
  | .confirm, _ => none
  | .prompt, dv => some (jsTruthyString dv)

/-- The state of one `ACPDialog` instance.  `listeners` is the `_listeners`
registry (`_cb` is modelled by `hasCb`; listeners and the callback are
identified by numbers).  `attached` records whether `$el` is currently a
child of `document.body` (it is appended exactly once, in `_initDOM`).
`inputValue` is the current value of the prompt text input. -/
structure Dialog where
  kind : Kind
  rootId : Nat
  isOpen : Bool
  attached : Bool
  ariaHidden : Bool
  prevFocus : Option Nat
  listeners : String → List Nat
  hasCb : Bool
  inputValue : String

/-- One descendant element of the generated markup: its id, whether it
carries `autofocus`, whether it carries the closer attribute, and its class
list. -/
structure Node where
  id : Nat
  autofocus : Bool
  closer : Bool
  classes : List String
deriving DecidableEq

/-- Id of the OK button. -/
def okId (d : Dialog) : Nat := d.rootId + 1

/-- Id of the cancel button (meaningful when the variant renders one). -/
def cancelId (d : Dialog) : Nat := d.rootId + 2

/-- Id of the prompt text input (meaningful for prompt dialogs). -/
def inputId (d : Dialog) : Nat := d.rootId + 3

/-- The descendant elements created by `_initDOM`, in document order: the
optional text input, then the optional cancel button, then the OK button. -/
def nodes (d : Dialog) : List Node :=
  (if d.kind = .prompt then [⟨inputId d, true, false, []⟩] else [])
  ++ (match getCancelButton d.kind with
      | some b => [⟨cancelId d, b.autofocus, b.closer, []⟩]
      | none => [])
  ++ [⟨okId d, (getOkButton d.kind).autofocus, (getOkButton d.kind).closer,
       [CSSPrimaryButton]⟩]

/-- `this.$el.querySelector('[autofocus]')`: the first descendant carrying
`autofocus`, in document order. -/
def autofocusElem (d : Dialog) : Option Nat :=
  ((nodes d).find? (fun n => n.autofocus)).map (fun n => n.id)

/-- `_focusOnDialog`: `this.$el.querySelector('[autofocus]') || this.$el`
chooses the element to focus; this is total (it never throws). -/
def focusOnDialog (autofocusResult : Option Nat) (rootId : Nat) : Nat :=
  match autofocusResult with
  | some x => x
  | none => rootId

/-- The element ids of this dialog's DOM subtree; `contains` includes the
root itself. -/
def elems (d : Dialog) : List Nat := d.rootId :: (nodes d).map (fun n => n.id)

/-- `this.$el.contains(document.activeElement)`; `contains(null)` is false. -/
def elContains (d : Dialog) (active : Option Nat) : Bool :=
  match active with
  | none => false
  | some a => decide (a ∈ elems d)

/-- The target element of a DOM event, as far as the dialog code inspects
it: its id and its class list. -/
structure Target where
  id : Nat
  classes : List String
deriving DecidableEq

/-- A DOM event as far as the dialog code inspects it: `event.which`,
`event.shiftKey` and the (optional) target element. -/
structure Ev where
  which : Nat
  shiftKey : Bool
  target : Option Target
deriving DecidableEq

/-- The `event.target` record for element `i` of the dialog subtree. -/
def targetOf (d : Dialog) (i : Nat) : Option Target :=
  ((nodes d).find? (fun n => n.id == i)).map (fun n => ⟨n.id, n.classes⟩)

/-- A click event delivered to element `i` of the dialog: `event.target` is
that element. -/
def clickEv (d : Dialog) (i : Nat) : Ev := ⟨1, false, targetOf d i⟩

/-- A keydown event dispatched while element `i` of the dialog is focused:
keyboard events target the focused element. -/
def keydownEv (d : Dialog) (i : Nat) (which : Nat) (shift : Bool) : Ev :=
  ⟨which, shift, targetOf d i⟩

/-- `CPDialog._isOkButtonEvent`: `e && e.target && e.target.classList ?
e.target.classList.contains(CSS.PrimaryButton) : false`. -/
def isOkButtonEvent : Option Ev → Bool
  | some ev =>
    match ev.target with
    | some t => t.classes.contains CSSPrimaryButton
    | none => false
  | none => false

/-- The value the completion callback is invoked with. -/
inductive CbResult where
  | unit
  | bool (b : Bool)
  | str (s : Option String)
deriving DecidableEq

/-- `_executeCallback` of the three subclasses: alert calls `this._cb()`,
confirm calls `this._cb(isOk ? true : false)`, prompt calls
`this._cb(isOk ? this.$el.querySelector('input').value : null)`. -/
def executeCallback (d : Dialog) (e : Option Ev) : CbResult :=
  match d.kind with
  | .alert => .unit
  | .confirm => .bool (isOkButtonEvent e)
  | .prompt => .str (if isOkButtonEvent e then some d.inputValue else none)

/-- Observable DOM effects, listener invocations and event emissions, in
execution order. -/
inductive Action where
  | attachRoot
  | detachRoot
  | addCloserListeners
  | removeCloserListeners
  | addFocusObserver
  | addKeydownObserver
  | removeFocusObserver
  | removeKeydownObserver
  | setAria (hidden : Bool)
  | focusElem (i : Nat)
  | clearRegistry
  | markOpen
  | markClosed
  | preventDefault
  | invokeCb (r : CbResult)
  | invokeListener (l : Nat) (root : Nat) (ev : Option Ev)
  | emit (type : String)
deriving DecidableEq

/-- `_fire(type, event)`: emit the event and invoke each listener currently
registered for `type`, in registration order, passing `(this.$el, event)`. -/
def fire (d : Dialog) (type : String) (ev : Option Ev) : List Action :=
  Action.emit type :: (d.listeners type).map (fun l => Action.invokeListener l d.rootId ev)

/-- `on(type, listener)`: guarded by JS truthiness of `type` (the empty
string is falsy, so registration is skipped for it); otherwise appends the
listener to the per-name list (duplicates allowed). -/
def onEvent (d : Dialog) (type : String) (l : Nat) : Dialog :=
  if type = "" then d
  else { d with
          listeners := fun t => if t = type then d.listeners type ++ [l] else d.listeners t }

/-- Removal of the first occurrence, as `indexOf` followed by
`splice(index, 1)` does (a no-op when the element is absent). -/
def removeFirst : List Nat → Nat → List Nat
  | [], _ => []
  | a :: r, x => if a = x then r else a :: removeFirst r x

/-- `off(type, listener)`: removes the first matching occurrence, if any. -/
def offEvent (d : Dialog) (type : String) (l : Nat) : Dialog :=
  { d with
     listeners := fun t => if t = type then removeFirst (d.listeners type) l else d.listeners t }

/-- `Array.prototype.indexOf`: index of the first occurrence, or `-1`. -/
def jsIndexOfNat : List Nat → Nat → Int
  | [], _ => -1
  | a :: r, x =>
    if a = x then 0
    else if jsIndexOfNat r x = -1 then -1 else jsIndexOfNat r x + 1

/-- `focusableChildren.indexOf(document.activeElement)`: `-1` when there is
no active element. -/
def jsIndexOf (l : List Nat) (active : Option Nat) : Int :=
  match active with
  | none => -1
  | some a => jsIndexOfNat l a

/-- `_tabKeydownListener`, given the visibility-filtered focusable
descendants (`ACPDialog.$$(TO_FOCUS_ON, this.$el)` filtered to visually
rendered elements), the active element and `event.shiftKey`.  Indexing past
an empty array yields `undefined`, whose `.focus()` call throws a TypeError:
modelled as `.error`.  On a wrap the source focuses first and then calls
`event.preventDefault()`. -/
def tabKeydownListener (focusable : List Nat) (active : Option Nat) (shift : Bool) :
    Except Unit (List Action) :=
  let idx := jsIndexOf focusable active
  if shift = true ∧ idx = 0 then
    match focusable.getLast? with
    | some e => .ok [Action.focusElem e, Action.preventDefault]
    | none => .error ()
  else if shift = false ∧ idx = (focusable.length : Int) - 1 then
    match focusable.head? with
    | some e => .ok [Action.focusElem e, Action.preventDefault]
    | none => .error ()
  else .ok []

/-- Result of a state-mutating entry point: the new state, the actions
taken, and whether a DOM exception escaped (mutations made before the throw
persist). -/
structure StepResult where
  d : Dialog
  trace : List Action
  threw : Bool

/-- The cleanup actions of `close(event)` up to (not including)
`removeChild`: set `aria-hidden`; restore the previous focus if recorded
(the element always has a `focus` method); remove the document focus and
keydown observers; remove the closer click listeners; clear `_listeners`;
set `_isOpen = false`. -/
def cleanupTrace (d : Dialog) : List Action :=
  [Action.setAria true]
  ++ (match d.prevFocus with
      | some p => [Action.focusElem p]
      | none => [])
  ++ [Action.removeFocusObserver, Action.removeKeydownObserver,
      Action.removeCloserListeners, Action.clearRegistry, Action.markClosed]

/-- `close(event)`: guard when not open; run the cleanup steps; then
`document.body.removeChild(this.$el)` (throws when the root is no longer a
child of the body, e.g. on a second close after a close/reopen cycle — the
root is appended only once, in `_initDOM`); invoke the callback when
supplied; finally `_fire(Close)` — which reads the registry that was just
cleared. -/
def closeD (d : Dialog) (ev : Option Ev) : StepResult :=
  if d.isOpen then
    let d1 : Dialog :=
      { d with ariaHidden := true, listeners := fun _ => [], isOpen := false }
    if d.attached then
      let d2 : Dialog := { d1 with attached := false }
      let cbAc := if d.hasCb then [Action.invokeCb (executeCallback d ev)] else []
      ⟨d2, cleanupTrace d ++ [Action.detachRoot] ++ cbAc ++ fire d2 "close" ev, false⟩
    else
      ⟨d1, cleanupTrace d, true⟩
  else ⟨d, [], false⟩

/-- `open(event)`: guard when already open; record `document.activeElement`
in `_previousFocusElement`; remove `aria-hidden`; `_focusOnDialog()`; attach
the document focus and keydown observers; set `_isOpen = true`;
`_fire(Open, event)`.  `active` is the ambient `document.activeElement`. -/
def openD (d : Dialog) (ev : Option Ev) (active : Option Nat) : Dialog × List Action :=
  if d.isOpen then (d, [])
  else
    let d1 : Dialog := { d with prevFocus := active, ariaHidden := false, isOpen := true }
    (d1, [Action.setAria false, Action.focusElem (focusOnDialog (autofocusElem d) d.rootId),
          Action.addFocusObserver, Action.addKeydownObserver, Action.markOpen]
         ++ fire d1 "open" ev)

/-- `_keydownListener(event)`: return unless
`this.$el.contains(document.activeElement)`; while open, TAB delegates to
`_tabKeydownListener` and ESC calls `event.preventDefault()` and then
`this._close(event, true)` (the second argument is ignored by `close`). -/
def keydownListener (d : Dialog) (active : Option Nat) (focusable : List Nat) (ev : Ev) :
    StepResult :=
  if elContains d active = false then ⟨d, [], false⟩
  else if d.isOpen then
    if ev.which = 9 then
      match tabKeydownListener focusable active ev.shiftKey with
      | .ok acts => ⟨d, acts, false⟩
      | .error _ => ⟨d, [], true⟩
    else if ev.which = 27 then
      let r := closeD d (some ev)
      ⟨r.d, Action.preventDefault :: r.trace, r.threw⟩
    else ⟨d, [], false⟩
  else ⟨d, [], false⟩

/-- The `ACPDialog` constructor: initialize the fields, `_initDOM` (create
the markup and append the root to `document.body`), then `_attachListeners`
(bind the closer click listeners and `_fire(Ready)` — at which point the
listener registry is necessarily still empty). -/
def construct (kind : Kind) (base : Nat) (hasCb : Bool) (defaultValue : Option String) :
    Dialog × List Action :=
  let d : Dialog :=
    { kind := kind, rootId := base, isOpen := false, attached := true,
      ariaHidden := true, prevFocus := none, listeners := fun _ => [],
      hasCb := hasCb,
      inputValue := (getInputElement kind defaultValue).getD "" }
  (d, [Action.attachRoot, Action.addCloserListeners] ++ fire d "ready" none)

/-- The factory operations `Dialog.alert/confirm/prompt`: construct the
variant, then `.open()` with no trigger event; `active` is
`document.activeElement` at that moment. -/
def factory (kind : Kind) (base : Nat) (hasCb : Bool) (defaultValue : Option String)
    (active : Option Nat) : Dialog × List Action :=
  let c := construct kind base hasCb defaultValue
  let o := openD c.1 none active
  (o.1, c.2 ++ o.2)

/-- User-driven operations on a live instance. -/
inductive Op where
  | openOp (ev : Option Ev) (active : Option Nat)
  | closeOp (ev : Option Ev)
  | onOp (type : String) (l : Nat)
  | offOp (type : String) (l : Nat)
  | keydown (active : Option Nat) (focusable : List Nat) (ev : Ev)

/-- One operation against the instance. -/
def step (d : Dialog) : Op → StepResult
  | .openOp ev active =>
    let o := openD d ev active
    ⟨o.1, o.2, false⟩
  | .closeOp ev => closeD d ev
  | .onOp t l => ⟨onEvent d t l, [], false⟩
  | .offOp t l => ⟨offEvent d t l, [], false⟩
  | .keydown active foc ev => keydownListener d active foc ev

/-- Run a sequence of operations, concatenating their traces (an exception
escaping one event handler does not prevent later events from being
handled). -/
def runOps (d : Dialog) : List Op → Dialog × List Action
  | [] => (d, [])
  | op :: rest =>
    let r := step d op
    let rec2 := runOps r.d rest
    (rec2.1, r.trace ++ rec2.2)

/-- Is this action a completion-callback invocation? -/
def isCbInvoke : Action → Bool
  | .invokeCb _ => true
  | _ => false

/-- Is this action a registered-listener invocation? -/
def isListenerInvoke : Action → Bool
  | .invokeListener _ _ _ => true
  | _ => false

/-- Number of completion-callback invocations in a trace. -/
def cbCount (tr : List Action) : Nat := tr.countP isCbInvoke

/-- Number of emissions of the named event in a trace. -/
def emitCount (tr : List Action) (type : String) : Nat :=
  tr.countP (fun a => decide (a = Action.emit type))

/-- A concrete confirm dialog produced by the factory (root id 30, with a
completion callback). -/
def dConfirm : Dialog := (factory .confirm 30 true none none).1

/-- A concrete prompt dialog produced by the factory (root id 20, with a
completion callback and default value "hello"). -/
def dPrompt : Dialog := (factory .prompt 20 true (some "hello") none).1

/-- A concrete alert dialog produced by the factory (root id 40, with a
completion callback). -/
def dAlert : Dialog := (factory .alert 40 true none none).1

/-- A concrete prompt dialog produced by the factory (root id 10), used as
the second of two simultaneously open dialogs. -/
def dSecond : Dialog := (factory .prompt 10 true none none).1

/-- A concrete open confirm dialog on which a listener (number 7) has been
registered for the `close` event. -/
def dC3 : Dialog := onEvent (factory .confirm 50 true none (some 99)).1 "close" 7

/-- A concrete dialog fresh from the constructor (never opened). -/
def dFresh : Dialog := (construct .alert 60 false none).1

/-! ## Counting helpers -/

/-- A mapped list contains no element satisfying `p` when `p` rejects every
image. -/
theorem countP_map_eq_zero {α β : Type} (p : β → Bool) (f : α → β)
    (l : List α) (h : ∀ a, p (f a) = false) : (l.map f).countP p = 0 := by
  induction l with
  | nil => rfl
  | cons a r ih => simp [List.countP_cons, h, ih]

/-- `cbCount` distributes over concatenation. -/
theorem cbCount_append (t1 t2 : List Action) :
    cbCount (t1 ++ t2) = cbCount t1 + cbCount t2 := by
  simp [cbCount, List.countP_append]

/-- `emitCount` distributes over concatenation. -/
theorem emitCount_append (t1 t2 : List Action) (s : String) :
    emitCount (t1 ++ t2) s = emitCount t1 s + emitCount t2 s := by
  simp [emitCount, List.countP_append]

/-- `cbCount` of the empty trace. -/
theorem cbCount_nil : cbCount [] = 0 := rfl

/-- `cbCount` unfolds over a cons. -/
theorem cbCount_cons (a : Action) (tr : List Action) :
    cbCount (a :: tr) = cbCount tr + (if isCbInvoke a = true then 1 else 0) := by
  simp [cbCount, List.countP_cons]

/-- `emitCount` of the empty trace. -/
theorem emitCount_nil (t : String) : emitCount [] t = 0 := rfl

/-- `emitCount` unfolds over a cons. -/
theorem emitCount_cons (a : Action) (tr : List Action) (t : String) :
    emitCount (a :: tr) t = emitCount tr t + (if a = Action.emit t then 1 else 0) := by
  simp [emitCount, List.countP_cons]

/-- A `_fire` trace contains no completion-callback invocation. -/
theorem cbCount_fire (d : Dialog) (t : String) (ev : Option Ev) :
    cbCount (fire d t ev) = 0 := by
  unfold cbCount fire
  rw [List.countP_cons, countP_map_eq_zero _ _ _ (fun a => rfl)]
  rfl

/-- A `_fire` trace emits exactly its own event name. -/
theorem emitCount_fire (d : Dialog) (t s : String) (ev : Option Ev) :
    emitCount (fire d t ev) s = if t = s then 1 else 0 := by
  unfold emitCount fire
  rw [List.countP_cons, countP_map_eq_zero _ _ _ (fun a => rfl)]
  by_cases h : t = s <;> simp [h]

/-- The cleanup steps of `close` invoke no completion callback. -/
theorem cbCount_cleanup (d : Dialog) : cbCount (cleanupTrace d) = 0 := by
  cases hp : d.prevFocus <;> simp [cleanupTrace, hp, cbCount, List.countP_cons, isCbInvoke]

/-- The cleanup steps of `close` emit no event. -/
theorem emitCount_cleanup (d : Dialog) (s : String) : emitCount (cleanupTrace d) s = 0 := by
  cases hp : d.prevFocus <;> simp [cleanupTrace, hp, emitCount, List.countP_cons]

/-- The cleanup steps of `close` invoke no registered listener. -/
theorem listenerCount_cleanup (d : Dialog) :
    (cleanupTrace d).countP isListenerInvoke = 0 := by
  cases hp : d.prevFocus <;> simp [cleanupTrace, hp, List.countP_cons, isListenerInvoke]

/-! ## Equations for `closeD` and `openD` -/

/-- `close` on a closed instance is a guarded no-op. -/
theorem closeD_not_open (d : Dialog) (ev : Option Ev) (h : d.isOpen = false) :
    closeD d ev = ⟨d, [], false⟩ := by
  simp [closeD, h]

/-- `close` on an open instance whose root is detached performs the cleanup
steps and then throws at `removeChild`, before reaching the callback or the
`Close` emission. -/
theorem closeD_detached (d : Dialog) (ev : Option Ev) (h : d.isOpen = true)
    (h2 : d.attached = false) :
    closeD d ev
      = ⟨{ d with ariaHidden := true, listeners := fun _ => [], isOpen := false },
         cleanupTrace d, true⟩ := by
  simp [closeD, h, h2]

/-- `close` on an open, attached instance: cleanup, detach, callback (when
supplied), then the `Close` emission read from the already-cleared
registry. -/
theorem closeD_open_attached (d : Dialog) (ev : Option Ev) (h : d.isOpen = true)
    (h2 : d.attached = true) :
    closeD d ev
      = ⟨{ d with ariaHidden := true, isOpen := false, attached := false, listeners := fun _ => [] },
         cleanupTrace d ++ [Action.detachRoot]
           ++ (if d.hasCb then [Action.invokeCb (executeCallback d ev)] else [])
           ++ [Action.emit "close"], false⟩ := by
  simp [closeD, h, h2, fire]

/-- `open` on an open instance is a guarded no-op. -/
theorem openD_open (d : Dialog) (ev : Option Ev) (active : Option Nat)
    (h : d.isOpen = true) : openD d ev active = (d, []) := by
  simp [openD, h]

/-! ## `indexOf` and the focus trap -/

/-- An element delivered by `getLast?` is a member of the list. -/
theorem mem_of_getLast?_eq : ∀ (l : List Nat) (a : Nat), l.getLast? = some a → a ∈ l
  | [], _, h => by simp at h
  | [x], a, h => by
    simp at h
    simp [h]
  | x :: y :: t, a, h => by
    rw [List.getLast?_cons_cons] at h
    exact List.mem_cons_of_mem _ (mem_of_getLast?_eq (y :: t) a h)

/-- `indexOf` of the head element is `0`. -/
theorem jsIndexOfNat_head (x : Nat) (r : List Nat) : jsIndexOfNat (x :: r) x = 0 := by
  simp [jsIndexOfNat]

/-- In a duplicate-free list, `indexOf` of the last element is
`length - 1`. -/
theorem jsIndexOfNat_getLast : ∀ (l : List Nat) (a : Nat), l.Nodup →
    l.getLast? = some a → jsIndexOfNat l a = (l.length : Int) - 1
  | [], _, _, h => by simp at h
  | [x], a, _, h => by
    simp at h
    simp [h, jsIndexOfNat]
  | x :: y :: t, a, hnd, h => by
    rw [List.getLast?_cons_cons] at h
    have hnd2 : (y :: t).Nodup := (List.nodup_cons.mp hnd).2
    have hmem : a ∈ y :: t := mem_of_getLast?_eq _ _ h
    have hx : ¬ x = a := by
      intro e
      exact (List.nodup_cons.mp hnd).1 (e ▸ hmem)
    have hi := jsIndexOfNat_getLast (y :: t) a hnd2 h
    rw [jsIndexOfNat, if_neg hx, hi]
    have hlen : ((y :: t).length : Int) - 1 = (t.length : Int) := by
      simp
    rw [hlen]
    have hne : ¬ ((t.length : Int) = -1) := by omega
    rw [if_neg hne]
    simp

/-- Forward Tab at the last focusable descendant (no duplicates, as in a
`querySelectorAll` result) wraps focus to the first and prevents default. -/
theorem tab_forward_wrap (focusable : List Nat) (first a : Nat) (hnd : focusable.Nodup)
    (hf : focusable.head? = some first) (hl : focusable.getLast? = some a) :
    tabKeydownListener focusable (some a) false
      = .ok [Action.focusElem first, Action.preventDefault] := by
  have hidx : jsIndexOf focusable (some a) = (focusable.length : Int) - 1 := by
    simpa [jsIndexOf] using jsIndexOfNat_getLast focusable a hnd hl
  simp [tabKeydownListener, hidx, hl, hf]

/-- Shift+Tab at the first focusable descendant wraps focus to the last and
prevents default. -/
theorem tab_shift_wrap (focusable : List Nat) (first a : Nat)
    (hf : focusable.head? = some first) (hl : focusable.getLast? = some a) :
    tabKeydownListener focusable (some first) true
      = .ok [Action.focusElem a, Action.preventDefault] := by
  have hidx : jsIndexOf focusable (some first) = 0 := by
    cases focusable with
    | nil => simp at hf
    | cons x r =>
      obtain rfl : x = first := by simpa using hf
      simp [jsIndexOf, jsIndexOfNat]
  simp [tabKeydownListener, hidx, hl]

/-- The possible action lists of a non-throwing tab-trap call: nothing, or a
focus move followed by `preventDefault`. -/
theorem tab_ok_cases (foc : List Nat) (a : Option Nat) (s : Bool) (acts : List Action)
    (h : tabKeydownListener foc a s = .ok acts) :
    acts = [] ∨ ∃ e, acts = [Action.focusElem e, Action.preventDefault] := by
  simp only [tabKeydownListener] at h
  by_cases h1 : s = true ∧ jsIndexOf foc a = 0
  · rw [if_pos h1] at h
    cases hg : foc.getLast? with
    | none => rw [hg] at h; cases h
    | some e => rw [hg] at h; exact Or.inr ⟨e, (Except.ok.inj h).symm⟩
  · rw [if_neg h1] at h
    by_cases h2 : s = false ∧ jsIndexOf foc a = (foc.length : Int) - 1
    · rw [if_pos h2] at h
      cases hh : foc.head? with
      | none => rw [hh] at h; cases h
      | some e => rw [hh] at h; exact Or.inr ⟨e, (Except.ok.inj h).symm⟩
    · rw [if_neg h2] at h
      exact Or.inl (Except.ok.inj h).symm

/-! ## The generated markup, per variant -/

/-- The cancel button id never collides with the OK button id. -/
theorem beq_cancel_ok (d : Dialog) : (cancelId d == okId d) = false := by
  simp [cancelId, okId]

/-- The input id never collides with the OK button id. -/
theorem beq_input_ok (d : Dialog) : (inputId d == okId d) = false := by
  simp [inputId, okId]

/-- The input id never collides with the cancel button id. -/
theorem beq_input_cancel (d : Dialog) : (inputId d == cancelId d) = false := by
  simp [inputId, cancelId]

/-- The OK button is found as the target of an event delivered to it, and it
carries exactly the primary-button class. -/
theorem targetOf_okId (d : Dialog) :
    targetOf d (okId d) = some ⟨okId d, [CSSPrimaryButton]⟩ := by
  cases hk : d.kind <;>
    simp [targetOf, nodes, hk, getCancelButton, getOkButton,
      beq_cancel_ok, beq_input_ok, List.find?]

/-- The cancel button (present for confirm and prompt) is found as the
target of an event delivered to it, and it carries no class. -/
theorem targetOf_cancelId (d : Dialog) (h : ¬ d.kind = Kind.alert) :
    targetOf d (cancelId d) = some ⟨cancelId d, []⟩ := by
  cases hk : d.kind <;>
    simp_all [targetOf, nodes, hk, getCancelButton, getOkButton,
      beq_cancel_ok, beq_input_cancel, List.find?]

/-- A click on the OK button satisfies `_isOkButtonEvent`. -/
theorem isOk_click_ok (d : Dialog) :
    isOkButtonEvent (some (clickEv d (okId d))) = true := by
  simp [isOkButtonEvent, clickEv, targetOf_okId]

/-- A click on the cancel button does not satisfy `_isOkButtonEvent`. -/
theorem isOk_click_cancel (d : Dialog) (h : ¬ d.kind = Kind.alert) :
    isOkButtonEvent (some (clickEv d (cancelId d))) = false := by
  simp [isOkButtonEvent, clickEv, targetOf_cancelId d h]

/-- The OK button lies inside the dialog subtree. -/
theorem okId_mem_elems (d : Dialog) : okId d ∈ elems d := by
  cases hk : d.kind <;> simp [elems, nodes, hk, getCancelButton]

/-- `open` on a closed instance records the previous focus, focuses into the
dialog, attaches the observers, marks open and fires `Open` (the registry
and root are untouched by `open`, so the fired trace equals firing from the
pre-open state). -/
theorem openD_closed (d : Dialog) (ev : Option Ev) (active : Option Nat)
    (h : d.isOpen = false) :
    openD d ev active
      = ({ d with prevFocus := active, ariaHidden := false, isOpen := true },
         [Action.setAria false, Action.focusElem (focusOnDialog (autofocusElem d) d.rootId),
          Action.addFocusObserver, Action.addKeydownObserver, Action.markOpen]
         ++ fire d "open" ev) := by
  simp [openD, h, fire]

/-! ## Counting facts for the entry points -/

/-- `close` can only detach, never re-attach, the root. -/
theorem closeD_attached_mono (d : Dialog) (ev : Option Ev) :
    (closeD d ev).d.attached = true → d.attached = true := by
  unfold closeD
  split
  · split
    · intro h
      simp at h
    · intro h
      exact h
  · exact fun h => h

/-- The number of callback invocations performed by one `close` call. -/
theorem closeD_cbCount (d : Dialog) (ev : Option Ev) :
    cbCount (closeD d ev).trace
      = if d.isOpen = true ∧ d.attached = true ∧ d.hasCb = true then 1 else 0 := by
  by_cases ho : d.isOpen = true
  · by_cases ha : d.attached = true
    · rw [closeD_open_attached d ev ho ha]
      by_cases hc : d.hasCb = true <;>
        simp [ho, ha, hc, cbCount_append, cbCount_cleanup, cbCount_cons,
          cbCount_nil, isCbInvoke]
    · rw [closeD_detached d ev ho (by simpa using ha)]
      simp [ha, cbCount_cleanup]
  · rw [closeD_not_open d ev (by simpa using ho)]
    simp [ho, cbCount_nil]

/-- The number of `Close` emissions performed by one `close` call. -/
theorem closeD_closeEmits (d : Dialog) (ev : Option Ev) :
    emitCount (closeD d ev).trace "close"
      = if d.isOpen = true ∧ d.attached = true then 1 else 0 := by
  by_cases ho : d.isOpen = true
  · by_cases ha : d.attached = true
    · rw [closeD_open_attached d ev ho ha]
      by_cases hc : d.hasCb = true <;>
        simp [ho, ha, hc, emitCount_append, emitCount_cleanup, emitCount_cons,
          emitCount_nil]
    · rw [closeD_detached d ev ho (by simpa using ha)]
      simp [ha, emitCount_cleanup]
  · rw [closeD_not_open d ev (by simpa using ho)]
    simp [ho, emitCount_nil]

/-- One `close` call emits no event other than `Close`. -/
theorem closeD_emits_other (d : Dialog) (ev : Option Ev) (t : String)
    (ht : ¬ t = "close") : emitCount (closeD d ev).trace t = 0 := by
  have hts : ¬ ("close" = t) := fun h => ht h.symm
  by_cases ho : d.isOpen = true
  · by_cases ha : d.attached = true
    · rw [closeD_open_attached d ev ho ha]
      by_cases hc : d.hasCb = true <;>
        simp [hc, emitCount_append, emitCount_cleanup, emitCount_cons,
          emitCount_nil, hts]
    · rw [closeD_detached d ev ho (by simpa using ha)]
      simp [emitCount_cleanup]
  · rw [closeD_not_open d ev (by simpa using ho)]
    simp [emitCount_nil]

/-- `open` never changes whether the root is attached. -/
theorem openD_attached (d : Dialog) (ev : Option Ev) (active : Option Nat) :
    (openD d ev active).1.attached = d.attached := by
  by_cases ho : d.isOpen = true
  · rw [openD_open d ev active ho]
  · rw [openD_closed d ev active (by simpa using ho)]

/-- `open` performs no callback invocation and no emission other than
`Open`. -/
theorem openD_counts (d : Dialog) (ev : Option Ev) (active : Option Nat) (t : String)
    (ht : ¬ t = "open") :
    cbCount (openD d ev active).2 = 0 ∧ emitCount (openD d ev active).2 t = 0 := by
  by_cases ho : d.isOpen = true
  · rw [openD_open d ev active ho]
    exact ⟨rfl, rfl⟩
  · rw [openD_closed d ev active (by simpa using ho)]
    have hto : ¬ ("open" = t) := fun h => ht h.symm
    constructor
    · simp [cbCount_append, cbCount_fire, cbCount_cons, cbCount_nil, isCbInvoke]
    · simp [emitCount_append, emitCount_fire, emitCount_cons, emitCount_nil, hto]

/-- The three possible outcomes of one `_keydownListener` call: a pure focus
move (or nothing), a trap throw leaving the state untouched, or
`preventDefault` followed by a `close`. -/
theorem keydownListener_cases (d : Dialog) (active : Option Nat) (foc : List Nat) (ev : Ev) :
    (∃ acts, keydownListener d active foc ev = ⟨d, acts, false⟩
      ∧ cbCount acts = 0 ∧ (∀ t, emitCount acts t = 0))
    ∨ keydownListener d active foc ev = ⟨d, [], true⟩
    ∨ keydownListener d active foc ev
        = ⟨(closeD d (some ev)).d, Action.preventDefault :: (closeD d (some ev)).trace,
           (closeD d (some ev)).threw⟩ := by
  unfold keydownListener
  split
  · exact Or.inl ⟨[], rfl, rfl, fun t => rfl⟩
  · split
    · split
      · rcases h9 : tabKeydownListener foc active ev.shiftKey with u | acts
        · exact Or.inr (Or.inl rfl)
        · rcases tab_ok_cases foc active ev.shiftKey acts h9 with he | ⟨e, he⟩
          · subst he
            exact Or.inl ⟨[], rfl, rfl, fun t => rfl⟩
          · subst he
            refine Or.inl ⟨_, rfl, ?_, fun t => ?_⟩
            · simp [cbCount_cons, cbCount_nil, isCbInvoke]
            · simp [emitCount_cons, emitCount_nil]
      · split
        · exact Or.inr (Or.inr rfl)
        · exact Or.inl ⟨[], rfl, rfl, fun t => rfl⟩
    · exact Or.inl ⟨[], rfl, rfl, fun t => rfl⟩

/-! ## Per-step and whole-run counting invariants -/

/-- A step can only detach, never re-attach, the root. -/
theorem step_attached_mono (d : Dialog) (op : Op) :
    (step d op).d.attached = true → d.attached = true := by
  cases op with
  | openOp ev active =>
    intro h
    simpa [step, openD_attached] using h
  | closeOp ev => exact closeD_attached_mono d ev
  | onOp t l =>
    intro h
    by_cases ht : t = "" <;> simpa [step, onEvent, ht] using h
  | offOp t l =>
    intro h
    simpa [step, offEvent] using h
  | keydown active foc ev =>
    rcases keydownListener_cases d active foc ev with ⟨acts, he, _, _⟩ | he | he <;>
      simp only [step] <;> rw [he]
    · exact fun h => h
    · exact fun h => h
    · exact closeD_attached_mono d (some ev)

/-- A detached root stays detached. -/
theorem step_attached_false (d : Dialog) (op : Op) (hdet : d.attached = false) :
    (step d op).d.attached = false := by
  cases hb : (step d op).d.attached with
  | false => rfl
  | true =>
    rw [step_attached_mono d op hb] at hdet
    cases hdet

/-- One step invokes the callback at most once, only by detaching the root,
and never once the root is already detached. -/
theorem step_cbCount (d : Dialog) (op : Op) :
    cbCount (step d op).trace ≤ 1
    ∧ (cbCount (step d op).trace = 1 → (step d op).d.attached = false)
    ∧ (d.attached = false → cbCount (step d op).trace = 0) := by
  cases op with
  | openOp ev active =>
    have h := (openD_counts d ev active "close" (by simp)).1
    refine ⟨by simp [step, h], ?_, fun _ => by simp [step, h]⟩
    intro h1
    simp [step, h] at h1
  | closeOp ev =>
    have h := closeD_cbCount d ev
    by_cases hcond : d.isOpen = true ∧ d.attached = true ∧ d.hasCb = true
    · rw [if_pos hcond] at h
      refine ⟨?_, fun _ => ?_, fun hf => ?_⟩
      · simp [step, h]
      · show (closeD d ev).d.attached = false
        rw [closeD_open_attached d ev hcond.1 hcond.2.1]
      · rw [hcond.2.1] at hf
        cases hf
    · rw [if_neg hcond] at h
      refine ⟨by simp [step, h], ?_, fun _ => by simp [step, h]⟩
      intro h1
      simp [step, h] at h1
  | onOp t l =>
    exact ⟨by simp [step, cbCount_nil], by simp [step, cbCount_nil], fun _ => by simp [step, cbCount_nil]⟩
  | offOp t l =>
    exact ⟨by simp [step, cbCount_nil], by simp [step, cbCount_nil], fun _ => by simp [step, cbCount_nil]⟩
  | keydown active foc ev =>
    rcases keydownListener_cases d active foc ev with ⟨acts, he, hc, _⟩ | he | he <;>
      simp only [step] <;> rw [he]
    · exact ⟨by simp [hc], fun h1 => absurd (hc.symm.trans h1) (by decide), fun _ => hc⟩
    · exact ⟨by simp [cbCount_nil], by simp [cbCount_nil], fun _ => by simp [cbCount_nil]⟩
    · have h := closeD_cbCount d (some ev)
      have hps : cbCount (Action.preventDefault :: (closeD d (some ev)).trace)
          = cbCount (closeD d (some ev)).trace := by
        simp [cbCount_cons, isCbInvoke]
      by_cases hcond : d.isOpen = true ∧ d.attached = true ∧ d.hasCb = true
      · rw [if_pos hcond] at h
        refine ⟨by simp [hps, h], fun _ => ?_, fun hf => ?_⟩
        · show (closeD d (some ev)).d.attached = false
          rw [closeD_open_attached d (some ev) hcond.1 hcond.2.1]
        · rw [hcond.2.1] at hf
          cases hf
      · rw [if_neg hcond] at h
        refine ⟨by simp [hps, h], ?_, fun _ => by simp [hps, h]⟩
        intro h1
        simp [hps, h] at h1

/-- One step emits `Close` at most once, only by detaching the root, and
never once the root is already detached. -/
theorem step_closeEmits (d : Dialog) (op : Op) :
    emitCount (step d op).trace "close" ≤ 1
    ∧ (emitCount (step d op).trace "close" = 1 → (step d op).d.attached = false)
    ∧ (d.attached = false → emitCount (step d op).trace "close" = 0) := by
  cases op with
  | openOp ev active =>
    have h := (openD_counts d ev active "close" (by simp)).2
    refine ⟨by simp [step, h], ?_, fun _ => by simp [step, h]⟩
    intro h1
    simp [step, h] at h1
  | closeOp ev =>
    have h := closeD_closeEmits d ev
    by_cases hcond : d.isOpen = true ∧ d.attached = true
    · rw [if_pos hcond] at h
      refine ⟨by simp [step, h], fun _ => ?_, fun hf => ?_⟩
      · show (closeD d ev).d.attached = false
        rw [closeD_open_attached d ev hcond.1 hcond.2]
      · rw [hcond.2] at hf
        cases hf
    · rw [if_neg hcond] at h
      refine ⟨by simp [step, h], ?_, fun _ => by simp [step, h]⟩
      intro h1
      simp [step, h] at h1
  | onOp t l =>
    exact ⟨by simp [step, emitCount_nil], by simp [step, emitCount_nil],
      fun _ => by simp [step, emitCount_nil]⟩
  | offOp t l =>
    exact ⟨by simp [step, emitCount_nil], by simp [step, emitCount_nil],
      fun _ => by simp [step, emitCount_nil]⟩
  | keydown active foc ev =>
    rcases keydownListener_cases d active foc ev with ⟨acts, he, _, ht⟩ | he | he <;>
      simp only [step] <;> rw [he]
    · exact ⟨by simp [ht "close"], fun h1 => absurd ((ht "close").symm.trans h1) (by decide),
        fun _ => ht "close"⟩
    · exact ⟨by simp [emitCount_nil], by simp [emitCount_nil], fun _ => by simp [emitCount_nil]⟩
    · have h := closeD_closeEmits d (some ev)
      have hps : emitCount (Action.preventDefault :: (closeD d (some ev)).trace) "close"
          = emitCount (closeD d (some ev)).trace "close" := by
        simp [emitCount_cons]
      by_cases hcond : d.isOpen = true ∧ d.attached = true
      · rw [if_pos hcond] at h
        refine ⟨by simp [hps, h], fun _ => ?_, fun hf => ?_⟩
        · show (closeD d (some ev)).d.attached = false
          rw [closeD_open_attached d (some ev) hcond.1 hcond.2]
        · rw [hcond.2] at hf
          cases hf
      · rw [if_neg hcond] at h
        refine ⟨by simp [hps, h], ?_, fun _ => by simp [hps, h]⟩
        intro h1
        simp [hps, h] at h1

/-- No step ever emits `Ready` again: the only `_fire(Ready)` is in the
constructor. -/
theorem step_readyEmits (d : Dialog) (op : Op) :
    emitCount (step d op).trace "ready" = 0 := by
  cases op with
  | openOp ev active =>
    have h := (openD_counts d ev active "ready" (by decide)).2
    simp [step, h]
  | closeOp ev =>
    have h := closeD_emits_other d ev "ready" (by decide)
    simp [step, h]
  | onOp t l => simp [step, emitCount_nil]
  | offOp t l => simp [step, emitCount_nil]
  | keydown active foc ev =>
    rcases keydownListener_cases d active foc ev with ⟨acts, he, _, ht⟩ | he | he <;>
      simp only [step] <;> rw [he]
    · exact ht "ready"
    · exact emitCount_nil "ready"
    · have h := closeD_emits_other d (some ev) "ready" (by decide)
      simp [emitCount_cons, h]

/-- Over any whole run: the callback fires at most once, the `Close` event
is emitted at most once, `Ready` is never emitted, and nothing at all fires
once the root is detached. -/
theorem runOps_counts (ops : List Op) : ∀ d : Dialog,
    cbCount (runOps d ops).2 ≤ 1
    ∧ (d.attached = false → cbCount (runOps d ops).2 = 0)
    ∧ emitCount (runOps d ops).2 "close" ≤ 1
    ∧ (d.attached = false → emitCount (runOps d ops).2 "close" = 0)
    ∧ emitCount (runOps d ops).2 "ready" = 0 := by
  induction ops with
  | nil =>
    intro d
    exact ⟨by simp [runOps, cbCount_nil], fun _ => rfl,
      by simp [runOps, emitCount_nil], fun _ => rfl, rfl⟩
  | cons op rest ih =>
    intro d
    have hs1 := step_cbCount d op
    have hs2 := step_closeEmits d op
    have hs3 := step_readyEmits d op
    have hr := ih (step d op).d
    have htr : (runOps d (op :: rest)).2 = (step d op).trace ++ (runOps (step d op).d rest).2 := rfl
    rw [htr, cbCount_append, emitCount_append, emitCount_append]
    refine ⟨?_, fun hdet => ?_, ?_, fun hdet => ?_, ?_⟩
    · rcases Nat.lt_or_ge (cbCount (step d op).trace) 1 with h0 | h1
      · omega
      · have he1 : cbCount (step d op).trace = 1 := le_antisymm hs1.1 h1
        have hdet := hs1.2.1 he1
        have hrest := (ih (step d op).d).2.1 hdet
        omega
    · have h0 := hs1.2.2 hdet
      have hrest := (ih (step d op).d).2.1 (step_attached_false d op hdet)
      omega
    · rcases Nat.lt_or_ge (emitCount (step d op).trace "close") 1 with h0 | h1
      · omega
      · have he1 : emitCount (step d op).trace "close" = 1 := le_antisymm hs2.1 h1
        have hdet := hs2.2.1 he1
        have hrest := (ih (step d op).d).2.2.2.1 hdet
        omega
    · have h0 := hs2.2.2 hdet
      have hrest := (ih (step d op).d).2.2.2.1 (step_attached_false d op hdet)
      omega
    · have hrest := (ih (step d op).d).2.2.2.2
      omega

/-! ## The factory operations -/

/-- The element focused when the factory opens the freshly built dialog. -/
def factoryFocusTarget (k : Kind) (b : Nat) (cb : Bool) (dv : Option String) : Nat :=
  focusOnDialog (autofocusElem (construct k b cb dv).1) b

/-- The full trace of one factory call, explicitly: attach the root, bind
the closer listeners, emit `Ready` (to the necessarily empty registry),
then the open sequence ending in the `Open` emission. -/
theorem factory_trace (k : Kind) (b : Nat) (cb : Bool) (dv : Option String) (act : Option Nat) :
    (factory k b cb dv act).2
      = [Action.attachRoot, Action.addCloserListeners, Action.emit "ready",
         Action.setAria false, Action.focusElem (factoryFocusTarget k b cb dv),
         Action.addFocusObserver, Action.addKeydownObserver, Action.markOpen,
         Action.emit "open"] := by
  simp [factory, construct, openD, fire, factoryFocusTarget]

/-- The state of a factory-built dialog: open, attached, with the requested
kind, callback and initial input value. -/
theorem factory_state (k : Kind) (b : Nat) (cb : Bool) (dv : Option String) (act : Option Nat) :
    (factory k b cb dv act).1.isOpen = true
    ∧ (factory k b cb dv act).1.attached = true
    ∧ (factory k b cb dv act).1.hasCb = cb
    ∧ (factory k b cb dv act).1.kind = k
    ∧ (factory k b cb dv act).1.inputValue = (getInputElement k dv).getD "" := by
  refine ⟨?_, ?_, ?_, ?_, ?_⟩ <;> simp [factory, construct, openD]

/-- The truthiness default equals the plain default to the empty string: a
missing value gives the empty string and a supplied string gives itself
(the falsy case is the empty string, which is its own default). -/
theorem jsTruthyString_eq_getD (dv : Option String) : jsTruthyString dv = dv.getD "" := by
  cases dv with
  | none => rfl
  | some v => by_cases hv : v = "" <;> simp [jsTruthyString, hv]

/-! ## Claim theorems -/

/-- C5: while a dialog is open, a Tab keydown whose currently focused
element is the last element of the dialog's focusable-descendants list
moves focus to the first element of that list, and a Shift+Tab keydown at
the first element moves focus to the last; in both cases the handler calls
the event's preventDefault.  (The focusable list is a `querySelectorAll`
result and hence has no duplicate elements.) -/
theorem acp_C5 (focusable : List Nat) (first lastE : Nat) (hnd : focusable.Nodup)
    (hf : focusable.head? = some first) (hl : focusable.getLast? = some lastE) :
    tabKeydownListener focusable (some lastE) false
      = .ok [Action.focusElem first, Action.preventDefault]
    ∧ tabKeydownListener focusable (some first) true
      = .ok [Action.focusElem lastE, Action.preventDefault] :=
  ⟨tab_forward_wrap focusable first lastE hnd hf hl,
   tab_shift_wrap focusable first lastE hf hl⟩

/-- Witness for C5 at the concrete focusable list `[1, 2, 3]`. -/
theorem acp_C5_witness :
    ([1, 2, 3] : List Nat).Nodup
    ∧ tabKeydownListener [1, 2, 3] (some 3) false
        = .ok [Action.focusElem 1, Action.preventDefault] :=
  ⟨by decide, (acp_C5 [1, 2, 3] 1 3 (by decide) (by decide) (by decide)).1⟩

/-- C6 (amended): with an empty focusable-descendants list, initial focus
placement never throws — it focuses the first autofocus element, which
every variant's markup contains, and would fall back to the dialog root
only if no autofocus element existed — and the Shift+Tab trap handler is a
harmless no-op; the forward-Tab trap handler, however, throws: `indexOf`
returns -1, which equals `length - 1` for an empty list, so the handler
reads element 0 of the empty array and calls a method of `undefined`. -/
theorem acp_C6_amended :
    (∀ r, focusOnDialog none r = r)
    ∧ (∀ a r, focusOnDialog (some a) r = a)
    ∧ (∀ d : Dialog, (autofocusElem d).isSome = true)
    ∧ (∀ a, tabKeydownListener [] a true = .ok [])
    ∧ (∀ a, tabKeydownListener [] a false = .error ()) := by
  refine ⟨fun r => rfl, fun a r => rfl, fun d => ?_, fun a => ?_, fun a => ?_⟩
  · cases hk : d.kind <;>
      simp [autofocusElem, nodes, hk, getCancelButton, getOkButton, List.find?]
  · cases a <;> rfl
  · cases a <;> rfl

/-- Counterexample for C6 as stated: a forward Tab keydown in a dialog with
no focusable descendants makes the trap handler throw instead of falling
back to the dialog root without throwing. -/
theorem acp_C6_counterexample :
    tabKeydownListener [] (some 0) false = .error () := rfl

/-- C7: a dialog's keydown handler acts only when the currently focused
element lies within its own DOM subtree; hence with two simultaneously open
dialogs, a keypress (in particular Escape) while focus is inside the second
never closes the first — the first dialog's state is unchanged and no
action (no close, no callback) is taken by its handler. -/
theorem acp_C7 :
    (∀ (d : Dialog) (active : Option Nat) (foc : List Nat) (ev : Ev),
      elContains d active = false → keydownListener d active foc ev = ⟨d, [], false⟩)
    ∧ (∀ (A B : Dialog) (a : Nat) (foc : List Nat) (ev : Ev),
      a ∈ elems B → (∀ x, x ∈ elems B → x ∉ elems A) →
      keydownListener A (some a) foc ev = ⟨A, [], false⟩) := by
  have h1 : ∀ (d : Dialog) (active : Option Nat) (foc : List Nat) (ev : Ev),
      elContains d active = false → keydownListener d active foc ev = ⟨d, [], false⟩ := by
    intro d active foc ev h
    simp [keydownListener, h]
  refine ⟨h1, fun A B a foc ev hmem hdisj => ?_⟩
  apply h1
  simp only [elContains, decide_eq_false_iff_not]
  exact hdisj a hmem

/-- Witness for C7: an Escape keydown while focus is on an element of the
open prompt dialog `dSecond` leaves the open confirm dialog `dConfirm`
untouched. -/
theorem acp_C7_witness :
    (11 ∈ elems dSecond ∧ ∀ x, x ∈ elems dSecond → x ∉ elems dConfirm)
    ∧ keydownListener dConfirm (some 11) [] (keydownEv dSecond 11 27 false)
        = ⟨dConfirm, [], false⟩ :=
  ⟨⟨by decide, by decide⟩,
   acp_C7.2 dConfirm dSecond 11 [] (keydownEv dSecond 11 27 false) (by decide) (by decide)⟩

/-- Escape handling: with focus on element `i` of this open dialog, the
keydown listener prevents default and then closes, passing the keydown
event through to `close`. -/
theorem keydown_esc (d : Dialog) (i : Nat) (foc : List Nat) (ev : Ev)
    (hm : i ∈ elems d) (ho : d.isOpen = true) (hw : ev.which = 27) :
    keydownListener d (some i) foc ev
      = ⟨(closeD d (some ev)).d, Action.preventDefault :: (closeD d (some ev)).trace,
         (closeD d (some ev)).threw⟩ := by
  have hc : ¬ (elContains d (some i) = false) := by
    simp [elContains, hm]
  simp [keydownListener, hc, ho, hw]

/-- The callback invocation, with the result computed from the close
trigger event, always appears in the trace of a successful close of a
dialog that has a callback. -/
theorem closeD_cb_mem (d : Dialog) (ev : Option Ev) (h2 : d.isOpen = true)
    (h3 : d.attached = true) (h4 : d.hasCb = true) :
    Action.invokeCb (executeCallback d ev) ∈ (closeD d ev).trace := by
  rw [closeD_open_attached d ev h2 h3]
  simp [h4, List.mem_append]

/-- C1 (amended): for an open Confirm dialog with a callback, closing by a
click on the OK button (the event target carrying the primary-button class)
invokes the callback with true; a click on the cancel button invokes it
with false; an Escape keydown invokes it with false provided the focused
element — the keydown target — does not carry the primary-button marker;
and in every case OK-ness is decided solely by whether the close trigger
event's target carries the primary-button marker. -/
theorem acp_C1_amended (d : Dialog) (h1 : d.kind = Kind.confirm) (h2 : d.isOpen = true)
    (h3 : d.attached = true) (h4 : d.hasCb = true) :
    Action.invokeCb (CbResult.bool true) ∈ (closeD d (some (clickEv d (okId d)))).trace
    ∧ Action.invokeCb (CbResult.bool false) ∈ (closeD d (some (clickEv d (cancelId d)))).trace
    ∧ (∀ (i : Nat) (foc : List Nat), i ∈ elems d →
        isOkButtonEvent (some (keydownEv d i 27 false)) = false →
        Action.invokeCb (CbResult.bool false)
          ∈ (keydownListener d (some i) foc (keydownEv d i 27 false)).trace)
    ∧ (∀ ev : Option Ev, executeCallback d ev = CbResult.bool (isOkButtonEvent ev)) := by
  have hexec : ∀ ev : Option Ev, executeCallback d ev = CbResult.bool (isOkButtonEvent ev) := by
    intro ev
    simp [executeCallback, h1]
  refine ⟨?_, ?_, ?_, hexec⟩
  · have hm := closeD_cb_mem d (some (clickEv d (okId d))) h2 h3 h4
    rw [hexec, isOk_click_ok] at hm
    exact hm
  · have hm := closeD_cb_mem d (some (clickEv d (cancelId d))) h2 h3 h4
    rw [hexec, isOk_click_cancel d (by simp [h1])] at hm
    exact hm
  · intro i foc hmem hok
    rw [keydown_esc d i foc (keydownEv d i 27 false) hmem h2 rfl]
    have hm := closeD_cb_mem d (some (keydownEv d i 27 false)) h2 h3 h4
    rw [hexec, hok] at hm
    exact List.mem_cons_of_mem _ hm

/-- Witness for C1 (amended) at the concrete confirm dialog `dConfirm`. -/
theorem acp_C1_amended_witness :
    dConfirm.kind = Kind.confirm
    ∧ Action.invokeCb (CbResult.bool true)
        ∈ (closeD dConfirm (some (clickEv dConfirm (okId dConfirm)))).trace :=
  ⟨by decide, (acp_C1_amended dConfirm (by decide) (by decide) (by decide) (by decide)).1⟩

/-- Counterexample for C1 as stated: on the open confirm dialog `dConfirm`,
an Escape keydown pressed while the OK button (element 31) is focused — so
the keydown event targets the primary-marked button — invokes the callback
with true, not false. -/
theorem acp_C1_counterexample :
    Action.invokeCb (CbResult.bool true)
      ∈ (keydownListener dConfirm (some 31) [] (keydownEv dConfirm 31 27 false)).trace
    ∧ Action.invokeCb (CbResult.bool false)
      ∉ (keydownListener dConfirm (some 31) [] (keydownEv dConfirm 31 27 false)).trace :=
  ⟨by decide, by decide⟩

/-- C4 (amended): for an open Prompt dialog with a callback, closing by a
click on the OK button invokes the callback with the current string value
of the text input; a click on the cancel button invokes it with null; an
Escape keydown invokes it with null provided the focused element — the
keydown target — does not carry the primary-button marker; and the input's
initial value is the empty string when the factory's defaultValue argument
is absent and defaultValue itself otherwise. -/
theorem acp_C4_amended (d : Dialog) (h1 : d.kind = Kind.prompt) (h2 : d.isOpen = true)
    (h3 : d.attached = true) (h4 : d.hasCb = true) :
    Action.invokeCb (CbResult.str (some d.inputValue))
        ∈ (closeD d (some (clickEv d (okId d)))).trace
    ∧ Action.invokeCb (CbResult.str none)
        ∈ (closeD d (some (clickEv d (cancelId d)))).trace
    ∧ (∀ (i : Nat) (foc : List Nat), i ∈ elems d →
        isOkButtonEvent (some (keydownEv d i 27 false)) = false →
        Action.invokeCb (CbResult.str none)
          ∈ (keydownListener d (some i) foc (keydownEv d i 27 false)).trace)
    ∧ (∀ (b : Nat) (cb : Bool) (dv : Option String) (act : Option Nat),
        ((factory Kind.prompt b cb dv act).1).inputValue = dv.getD "") := by
  have hexec : ∀ ev : Option Ev,
      executeCallback d ev
        = CbResult.str (if isOkButtonEvent ev then some d.inputValue else none) := by
    intro ev
    simp [executeCallback, h1]
  refine ⟨?_, ?_, ?_, ?_⟩
  · have hm := closeD_cb_mem d (some (clickEv d (okId d))) h2 h3 h4
    rw [hexec, isOk_click_ok] at hm
    simpa using hm
  · have hm := closeD_cb_mem d (some (clickEv d (cancelId d))) h2 h3 h4
    rw [hexec, isOk_click_cancel d (by simp [h1])] at hm
    simpa using hm
  · intro i foc hmem hok
    rw [keydown_esc d i foc (keydownEv d i 27 false) hmem h2 rfl]
    have hm := closeD_cb_mem d (some (keydownEv d i 27 false)) h2 h3 h4
    rw [hexec, hok] at hm
    simp at hm
    exact List.mem_cons_of_mem _ hm
  · intro b cb dv act
    rw [(factory_state Kind.prompt b cb dv act).2.2.2.2]
    show (some (jsTruthyString dv)).getD "" = dv.getD ""
    rw [Option.getD_some, jsTruthyString_eq_getD]

/-- Witness for C4 (amended) at the concrete prompt dialog `dPrompt`, whose
input currently holds the string "hello". -/
theorem acp_C4_amended_witness :
    dPrompt.inputValue = "hello"
    ∧ Action.invokeCb (CbResult.str (some dPrompt.inputValue))
        ∈ (closeD dPrompt (some (clickEv dPrompt (okId dPrompt)))).trace :=
  ⟨by decide, (acp_C4_amended dPrompt (by decide) (by decide) (by decide) (by decide)).1⟩

/-- Counterexample for C4 as stated: on the open prompt dialog `dPrompt`
(input value "hello"), an Escape keydown pressed while the OK button
(element 21) is focused — so the keydown event targets the primary-marked
button — invokes the callback with the input's value, not with null. -/
theorem acp_C4_counterexample :
    Action.invokeCb (CbResult.str (some "hello"))
      ∈ (keydownListener dPrompt (some 21) [] (keydownEv dPrompt 21 27 false)).trace
    ∧ Action.invokeCb (CbResult.str none)
      ∉ (keydownListener dPrompt (some 21) [] (keydownEv dPrompt 21 27 false)).trace :=
  ⟨by decide, by decide⟩

/-- C3 (evaluation at the failing input): on the open confirm dialog `dC3`
a listener (number 7) is registered for the `close` event, yet the close
trace contains no listener invocation at all — `close` clears `_listeners`
in step 5 of its cleanup before calling `_fire(Close)` in step 8, so the
`Close` emission reads an already-empty registry — even though the `Close`
event is emitted and the completion callback runs. -/
theorem acp_C3_eval :
    dC3.listeners "close" = [7]
    ∧ (closeD dC3 none).trace.countP isListenerInvoke = 0
    ∧ emitCount (closeD dC3 none).trace "close" = 1
    ∧ cbCount (closeD dC3 none).trace = 1 :=
  ⟨by decide, by decide, by decide, by decide⟩

/-- `removeFirst` removes exactly the first occurrence. -/
theorem removeFirst_append (l : Nat) : ∀ (xs ys : List Nat), l ∉ xs →
    removeFirst (xs ++ l :: ys) l = xs ++ ys
  | [], ys, _ => by simp [removeFirst]
  | x :: xs, ys, h => by
    have hx : ¬ x = l := fun e => h (e ▸ List.mem_cons_self x xs)
    have hxs : l ∉ xs := fun m => h (List.mem_cons_of_mem _ m)
    simp [removeFirst, hx, removeFirst_append l xs ys hxs]

/-- `removeFirst` is a no-op when the element is absent. -/
theorem removeFirst_not_mem (l : Nat) : ∀ (xs : List Nat), l ∉ xs →
    removeFirst xs l = xs
  | [], _ => rfl
  | x :: xs, h => by
    have hx : ¬ x = l := fun e => h (e ▸ List.mem_cons_self x xs)
    have hxs : l ∉ xs := fun m => h (List.mem_cons_of_mem _ m)
    simp [removeFirst, hx, removeFirst_not_mem l xs hxs]

/-- Mapping listeners to invocation actions produces only invocation
actions. -/
theorem filter_invoke_map (r : Nat) (ev : Option Ev) : ∀ ls : List Nat,
    (ls.map (fun f => Action.invokeListener f r ev)).filter isListenerInvoke
      = ls.map (fun f => Action.invokeListener f r ev)
  | [] => rfl
  | f :: ls => by
    simp [List.filter, isListenerInvoke, filter_invoke_map r ev ls]

/-- C8 (amended): for every nonempty event name, `on` appends the listener
to the ordered per-name sequence (duplicates allowed) and leaves every
other name unchanged; `on` with the empty event name is skipped entirely
(the name is falsy in the guard); `off` removes exactly the first matching
occurrence (a no-op when none matches) and leaves other names unchanged;
and firing an event invokes exactly the listeners currently registered for
that name, in registration order, each with `(domRoot, triggerEvent)`. -/
theorem acp_C8_amended (d : Dialog) (t : String) (l : Nat) :
    (¬ t = "" → (onEvent d t l).listeners t = d.listeners t ++ [l]
      ∧ ∀ s, ¬ s = t → (onEvent d t l).listeners s = d.listeners s)
    ∧ onEvent d "" l = d
    ∧ (offEvent d t l).listeners t = removeFirst (d.listeners t) l
    ∧ (∀ s, ¬ s = t → (offEvent d t l).listeners s = d.listeners s)
    ∧ (∀ xs ys, l ∉ xs → removeFirst (xs ++ l :: ys) l = xs ++ ys)
    ∧ (∀ xs, l ∉ xs → removeFirst xs l = xs)
    ∧ (∀ ev, (fire d t ev).filter isListenerInvoke
        = (d.listeners t).map (fun f => Action.invokeListener f d.rootId ev)) := by
  refine ⟨fun ht => ⟨?_, fun s hs => ?_⟩, ?_, ?_, fun s hs => ?_,
    fun xs ys => removeFirst_append l xs ys, fun xs => removeFirst_not_mem l xs, fun ev => ?_⟩
  · simp [onEvent, ht]
  · simp [onEvent, ht, hs]
  · simp [onEvent]
  · simp [offEvent]
  · simp [offEvent, hs]
  · simp [fire, List.filter, isListenerInvoke, filter_invoke_map d.rootId ev (d.listeners t)]

/-- Witness for C8 (amended) at the fresh dialog `dFresh` and the event
name `close`. -/
theorem acp_C8_amended_witness :
    ¬ ("close" = "")
    ∧ (onEvent dFresh "close" 5).listeners "close" = dFresh.listeners "close" ++ [5] :=
  ⟨by decide, ((acp_C8_amended dFresh "close" 5).1 (by decide)).1⟩

/-- Counterexample for C8 as stated: `on` with the empty event name does
not append the listener — the truthiness guard skips registration, so the
sequence for the empty name stays empty instead of becoming `[5]`. -/
theorem acp_C8_counterexample :
    (onEvent dFresh "" 5).listeners "" = []
    ∧ ¬ ((onEvent dFresh "" 5).listeners "" = dFresh.listeners "" ++ [5]) :=
  ⟨by decide, by decide⟩

/-- C10: for every open dialog with a callback, `close` performs all of its
cleanup — aria, focus restore, detaching the document focus and keydown
observers and the closer click listeners, clearing the listener registry,
marking the instance closed, and removing the dialog root — strictly
before invoking the completion callback, and the state returned (closed,
detached, registry empty) is already in force when the callback runs, so a
throwing callback still leaves the dialog fully closed; no exception
escapes this close itself. -/
theorem acp_C10 (d : Dialog) (ev : Option Ev) (h2 : d.isOpen = true)
    (h3 : d.attached = true) (h4 : d.hasCb = true) :
    (closeD d ev).trace
      = ([Action.setAria true]
          ++ (match d.prevFocus with | some p => [Action.focusElem p] | none => [])
          ++ [Action.removeFocusObserver, Action.removeKeydownObserver,
              Action.removeCloserListeners, Action.clearRegistry, Action.markClosed,
              Action.detachRoot])
        ++ [Action.invokeCb (executeCallback d ev), Action.emit "close"]
    ∧ (closeD d ev).d.isOpen = false
    ∧ (closeD d ev).d.attached = false
    ∧ (∀ t, (closeD d ev).d.listeners t = [])
    ∧ (closeD d ev).threw = false := by
  rw [closeD_open_attached d ev h2 h3]
  refine ⟨?_, rfl, rfl, fun t => rfl, rfl⟩
  simp [cleanupTrace, h4]

/-- Witness for C10 at the concrete alert dialog `dAlert`. -/
theorem acp_C10_witness :
    dAlert.isOpen = true
    ∧ (closeD dAlert none).d.attached = false
    ∧ (closeD dAlert none).threw = false :=
  ⟨by decide, (acp_C10 dAlert none (by decide) (by decide) (by decide)).2.2.1,
   (acp_C10 dAlert none (by decide) (by decide) (by decide)).2.2.2.2⟩

/-- C2 (amended): across every operation sequence on any instance the
completion callback fires at most once; one `close` of an open, attached
instance with a callback fires it exactly once and leaves the instance
closed; and calling `close` twice in a row fires the callback exactly
once.  (The instance is, however, not terminal after a close: a later
`open` succeeds again — see the counterexample — though a close after such
a reopen throws at `removeChild` before reaching the callback, which is
what keeps the count at one.) -/
theorem acp_C2_amended (d : Dialog) (ev ev2 : Option Ev) (h2 : d.isOpen = true)
    (h3 : d.attached = true) (h4 : d.hasCb = true) :
    (∀ (d0 : Dialog) (ops : List Op), cbCount (runOps d0 ops).2 ≤ 1)
    ∧ cbCount (closeD d ev).trace = 1
    ∧ (closeD d ev).d.isOpen = false
    ∧ cbCount (runOps d [Op.closeOp ev, Op.closeOp ev2]).2 = 1 := by
  have hc1 : cbCount (closeD d ev).trace = 1 := by
    rw [closeD_cbCount d ev, if_pos ⟨h2, h3, h4⟩]
  have hclosed : (closeD d ev).d.isOpen = false := by
    rw [closeD_open_attached d ev h2 h3]
  refine ⟨fun d0 ops => (runOps_counts ops d0).1, hc1, hclosed, ?_⟩
  have htr : (runOps d [Op.closeOp ev, Op.closeOp ev2]).2
      = (closeD d ev).trace ++ ((closeD (closeD d ev).d ev2).trace ++ []) := rfl
  have hc2 : cbCount (closeD (closeD d ev).d ev2).trace = 0 := by
    rw [closeD_cbCount, if_neg]
    intro hh
    rw [hclosed] at hh
    exact absurd hh.1 (by decide)
  rw [htr, cbCount_append, cbCount_append, cbCount_nil, hc1, hc2]

/-- Witness for C2 (amended) at the concrete confirm dialog `dConfirm`:
closing twice in a row fires the callback exactly once. -/
theorem acp_C2_amended_witness :
    dConfirm.isOpen = true
    ∧ cbCount (runOps dConfirm [Op.closeOp none, Op.closeOp none]).2 = 1 :=
  ⟨by decide, (acp_C2_amended dConfirm none none (by decide) (by decide) (by decide)).2.2.2⟩

/-- Counterexample for C2 as stated: the instance is not terminal after the
first successful close — running `close()` then `open()` on the open
confirm dialog `dConfirm` leaves the instance open again, and the `Open`
event is emitted a second time by that reopen. -/
theorem acp_C2_counterexample :
    (runOps dConfirm [Op.closeOp none, Op.openOp none none]).1.isOpen = true
    ∧ emitCount (runOps dConfirm [Op.closeOp none, Op.openOp none none]).2 "open" = 1 :=
  ⟨by decide, by decide⟩

/-- In a concatenation whose first part emits `Open` but never `Close`,
every prefix containing a `Close` emission also contains an `Open`
emission. -/
theorem take_close_open (F tr2 : List Action) (n : Nat)
    (hclose : emitCount F "close" = 0) (hopen : 0 < emitCount F "open") :
    0 < emitCount ((F ++ tr2).take n) "close" →
    0 < emitCount ((F ++ tr2).take n) "open" := by
  intro h
  rw [List.take_append_eq_append_take, emitCount_append] at h ⊢
  have htakeF : emitCount (F.take n) "close" = 0 := by
    have hle : emitCount (F.take n) "close" ≤ emitCount F "close" :=
      (List.take_sublist n F).countP_le _
    omega
  by_cases hn : n ≤ F.length
  · rw [Nat.sub_eq_zero_of_le hn] at h
    rw [htakeF] at h
    simp [emitCount_nil] at h
  · have hge : F.length ≤ n := Nat.le_of_not_le hn
    rw [List.take_of_length_le hge]
    omega

/-- C9: one factory call attaches exactly one dialog root and emits exactly
one `Ready` followed (after the focus and observer setup) by exactly one
`Open`, with no `Close`; over any subsequent operation sequence the
callback fires at most once, the `Close` event is emitted at most once and
`Ready` never again; every trace prefix containing a `Close` emission
already contains an `Open` emission; and closing the factory-built (open,
attached) instance emits `Close` exactly once. -/
theorem acp_C9 (k : Kind) (b : Nat) (cb : Bool) (dv : Option String) (act : Option Nat) :
    (factory k b cb dv act).2
      = [Action.attachRoot, Action.addCloserListeners, Action.emit "ready",
         Action.setAria false, Action.focusElem (factoryFocusTarget k b cb dv),
         Action.addFocusObserver, Action.addKeydownObserver, Action.markOpen,
         Action.emit "open"]
    ∧ (∀ ops : List Op,
        cbCount (runOps (factory k b cb dv act).1 ops).2 ≤ 1
        ∧ emitCount (runOps (factory k b cb dv act).1 ops).2 "close" ≤ 1
        ∧ emitCount (runOps (factory k b cb dv act).1 ops).2 "ready" = 0)
    ∧ (∀ (ops : List Op) (n : Nat),
        0 < emitCount
            (((factory k b cb dv act).2 ++ (runOps (factory k b cb dv act).1 ops).2).take n)
            "close" →
        0 < emitCount
            (((factory k b cb dv act).2 ++ (runOps (factory k b cb dv act).1 ops).2).take n)
            "open")
    ∧ (∀ ev, emitCount (closeD (factory k b cb dv act).1 ev).trace "close" = 1) := by
  have hFc : emitCount (factory k b cb dv act).2 "close" = 0 := by
    rw [factory_trace]
    simp [emitCount_cons, emitCount_nil]
  have hFo : emitCount (factory k b cb dv act).2 "open" = 1 := by
    rw [factory_trace]
    simp [emitCount_cons, emitCount_nil]
  refine ⟨factory_trace k b cb dv act,
    fun ops => ⟨(runOps_counts ops _).1, (runOps_counts ops _).2.2.1,
      (runOps_counts ops _).2.2.2.2⟩,
    fun ops n => take_close_open _ _ n hFc (by omega), fun ev => ?_⟩
  have hs := factory_state k b cb dv act
  rw [closeD_closeEmits, if_pos ⟨hs.1, hs.2.1⟩]

/-- Witness for C9: in the concrete run that closes the factory-built
confirm dialog, the 18-action prefix contains both a `Close` and an `Open`
emission. -/
theorem acp_C9_witness :
    0 < emitCount
        (((factory Kind.confirm 0 true none none).2
          ++ (runOps (factory Kind.confirm 0 true none none).1 [Op.closeOp none]).2).take 18)
        "close"
    ∧ 0 < emitCount
        (((factory Kind.confirm 0 true none none).2
          ++ (runOps (factory Kind.confirm 0 true none none).1 [Op.closeOp none]).2).take 18)
        "open" :=
  ⟨by decide, (acp_C9 Kind.confirm 0 true none none).2.2.1 [Op.closeOp none] 18 (by decide)⟩

end ACP
